import Mathlib

/-!
Verification development for the `clsarg` declarative argument-binding
library (`src/clsarg/clsarg.py`, tests in `src/tests/test_argparser.py`).

The development shallowly embeds:

* the Python runtime values the library manipulates (`PyObj`: scalars and
  the flat lists of coerced scalars that `nargs` arguments and the test
  transforms produce),
* declared annotations of the getter's `value` parameter (`PyAnnot`),
  covering the decorator's documented domain: the scalar types bound by
  its `P` type variable, `List[P]`, and `Union`/`Optional` shapes,
* the declaration compiler `_GenerateArgumentGetter.__call__` together
  with the `argument(...)` decorator front end,
* the narrow contract of the delegated flag grammar engine (Python
  `argparse`) restricted to the feature subset the library registers:
  long/short option strings, `store` / `store_true` / `store_const`
  actions, `type` coercion, `nargs` of a fixed count, zero-or-more and
  one-or-more, `required`, `default`, and `dest` resolution from the
  first long option string,
* `ArgumentParser.__new__` (per-class instance caching through the MRO
  attribute lookup of `__object__`),
* `ArgumentParser.__init__` (collection, ordering and registration of
  declarations) and `ArgumentParser.parse_args`,
* the synthesized property wrappers `_wrapper` and `const_wrapper`.

Python exceptions are modelled with `Except` / explicit error values;
mutation of the configuration instance is modelled by explicit state
passing where a raised exception leaves the caller's state untouched.
-/

namespace Clsarg

/-- Python scalar values: `None`, booleans, integers and strings. -/
inductive PyScalar where
  | none
  | bool (b : Bool)
  | int (n : Int)
  | str (s : String)
deriving Repr, DecidableEq

/-- Python runtime values in the library's footprint: scalars plus the
flat lists of scalars produced by `nargs` coercion and by the test
transforms. -/
inductive PyObj where
  | none
  | bool (b : Bool)
  | int (n : Int)
  | str (s : String)
  | list (xs : List PyScalar)
deriving Repr, DecidableEq

/-- Embedding of a scalar as a runtime value. -/
def PyObj.ofScalar : PyScalar → PyObj
  | PyScalar.none => PyObj.none
  | PyScalar.bool b => PyObj.bool b
  | PyScalar.int n => PyObj.int n
  | PyScalar.str s => PyObj.str s

/-- Ground annotation types: the scalar types of the decorator's `P`
type variable plus `NoneType` (the runtime class of `None`, appearing as
a `Union` argument). -/
inductive PyGround where
  | bool
  | int
  | str
  | noneType
deriving Repr, DecidableEq

/-- Declared annotation shapes for the getter's `value` parameter, as the
compiler inspects them through `get_type_hints` / `get_origin` /
`get_args`: a ground type, a parametrized `List[...]` with its tuple of
type arguments, or a `Union[...]` with its tuple of type arguments
(`Optional[T]` is `unionOf [T, noneType]`, the normalized form `typing`
produces for it). -/
inductive PyAnnot where
  | bool
  | int
  | str
  | noneType
  | listOf (tyArgs : List PyGround)
  | unionOf (tyArgs : List PyGround)
deriving Repr, DecidableEq

/-- The `nargs` values the library's decorator accepts: a fixed count,
the string literal for zero-or-more, or the one for one-or-more. -/
inductive Nargs where
  | count (n : Nat)
  | star
  | plus
deriving Repr, DecidableEq

/-- The `action` registered with the engine.  A keyword dict without an
`action` entry means argparse's standard `store` action, so absence and
`store` are identified. -/
inductive PyAction where
  | store
  | storeTrue
  | storeConst
deriving Repr, DecidableEq

/-- Definition-time (decoration-time) Python exceptions raised by
`_GenerateArgumentGetter.__call__`. -/
inductive CompileError where
  | valueError (msg : String)
  | typeError (msg : String)
  | indexError
deriving Repr, DecidableEq

/-- Parse-time failures of the grammar engine; each one makes argparse
print a usage message and terminate the process (SystemExit). -/
inductive ParseError where
  | unrecognizedArguments
  | requiredMissing
  | invalidValue
  | expectedArguments
deriving Repr, DecidableEq

/-- Runtime Python exceptions observable through property access. -/
inductive PyErr where
  | attributeError
  | typeErrorRT
deriving Repr, DecidableEq

-- Equality on `Except` results is decidable, so concrete runs of the
-- embedded code can be settled by evaluation.
deriving instance DecidableEq for Except

/-! ### String helpers

Python string operations used by the library, implemented by structural
recursion over the character list so that concrete runs reduce inside the
kernel. -/

/-- Auxiliary for `pySplit`: split on whitespace runs, dropping empties,
as Python `str.split()` does. -/
def wsSplitAux : List Char → List Char → List (List Char)
  | [], acc => if acc.isEmpty then [] else [acc.reverse]
  | c :: cs, acc =>
      if c.isWhitespace then
        if acc.isEmpty then wsSplitAux cs [] else acc.reverse :: wsSplitAux cs []
      else wsSplitAux cs (c :: acc)

/-- Python `str.split()` (no separator argument): whitespace-delimited
tokens, empty tokens discarded. -/
def pySplit (s : String) : List String :=
  (wsSplitAux s.data []).map String.mk

/-- Auxiliary for `pySplitOnChar`. -/
def splitOnCharAux (sep : Char) : List Char → List Char → List (List Char)
  | [], acc => [acc.reverse]
  | c :: cs, acc =>
      if c = sep then acc.reverse :: splitOnCharAux sep cs []
      else splitOnCharAux sep cs (c :: acc)

/-- Python `str.split(sep)` for a one-character separator, as used by the
test class's `baz` transform. -/
def pySplitOnChar (sep : Char) (s : String) : List String :=
  (splitOnCharAux sep s.data []).map String.mk

/-- Python `str.replace(a, b)` for one-character arguments (the library
only replaces `"_"` with `"-"` and vice versa). -/
def replaceChar (a b : Char) (s : String) : String :=
  String.mk (s.data.map fun c => if c = a then b else c)

/-- Whether the string starts with two dashes. -/
def startsDashDash (s : String) : Bool :=
  match s.data with
  | '-' :: '-' :: _ => true
  | _ => false

/-- Accumulating value of a digit run; fails on a non-digit. -/
def digitsValAux : List Char → Nat → Option Nat
  | [], acc => some acc
  | c :: cs, acc =>
      if c.isDigit then digitsValAux cs (acc * 10 + (c.toNat - 48))
      else Option.none

/-- Value of a nonempty all-digit character list. -/
def digitsVal : List Char → Option Nat
  | [] => Option.none
  | cs => digitsValAux cs 0

/-- Python `int(s)` restricted to optionally signed decimal literals. -/
def pyParseInt (s : String) : Option Int :=
  match s.data with
  | '-' :: cs => (digitsVal cs).map fun n => -(n : Int)
  | '+' :: cs => (digitsVal cs).map fun n => (n : Int)
  | cs => (digitsVal cs).map fun n => (n : Int)

/-! ### Declaration compiler (`_GenerateArgumentGetter.__call__`) -/

/-- The keyword dictionary threaded through `_GenerateArgumentGetter.__call__`
and handed to `argparse.add_argument`.  Each field mirrors one dict key;
an `Option` value of `Option.none` means the key is absent.  `action`
absent is identified with argparse's standard `store` action, and the
`const` key (always the Python value `True` when present, per the
decorator) is the flag `constFlag`. -/
structure Kwds where
  required : Bool := false
  help : Option String := Option.none
  action : PyAction := PyAction.store
  nargsVal : Option Nargs := Option.none
  typeVal : Option PyGround := Option.none
  defaultVal : Option PyObj := Option.none
  constFlag : Bool := false
  metavar : Option String := Option.none
deriving Repr, DecidableEq

/-- The compile-time view of a decorated getter function: its `__name__`,
its `__doc__`, the annotation of its `value` parameter as reported by
`get_type_hints` (absent when no annotated `value` parameter exists) and
the parameter's default as reported by `inspect.signature` (absent when
the default is `Parameter.empty`). -/
structure Getter where
  name : String
  doc : Option String := Option.none
  valueAnnot : Option PyAnnot := Option.none
  valueDefault : Option PyObj := Option.none
deriving Repr, DecidableEq

/-- Options accepted by the `argument(...)` decorator (the `choices`
argument is orthogonal validation the claims do not touch and is left
out of the model). -/
structure ArgOptions where
  nameOpt : Option String := Option.none
  aliases : List String := []
  metavar : Option String := Option.none
  constOpt : Bool := false
  nargsOpt : Option Nargs := Option.none
deriving Repr, DecidableEq

/-- The `__argument_info` record attached to the synthesized wrapper. -/
structure ArgumentInfo where
  getterName : String
  customName : Option String
  number : Nat
  posArgs : List String
  kwds : Kwds
deriving Repr, DecidableEq

/-- The type-and-arity inference block of `_GenerateArgumentGetter.__call__`
(the `if argument_type == bool / elif origin_type == list / elif
origin_type == Union` chain, source lines 316-333).  Returns the updated
keyword dict and the remaining coercion type. -/
def inferTypeStep (kwds : Kwds) (argumentType : Option PyAnnot) :
    Except CompileError (Kwds × Option PyGround) :=
  match argumentType with
  | some PyAnnot.bool =>
      Except.ok ({ kwds with required := false, action := PyAction.storeTrue },
        Option.none)
  | some (PyAnnot.listOf tyArgs) =>
      if tyArgs.length > 1 then
        Except.error (CompileError.typeError
          "You should set the return type of argument function to list that contains only one type.")
      else
        match tyArgs with
        | [t] =>
            Except.ok ({ kwds with
              nargsVal := some (kwds.nargsVal.getD Nargs.star) }, some t)
        | _ =>
            -- `type_args[0]` on an empty tuple raises IndexError in Python.
            Except.error CompileError.indexError
  | some (PyAnnot.unionOf tyArgs) =>
      match tyArgs with
      | [t, u] =>
          if u = PyGround.noneType then
            Except.ok ({ kwds with required := false }, some t)
          else Except.error (CompileError.typeError "Union type is not allowed.")
      | _ => Except.error (CompileError.typeError "Union type is not allowed.")
  | some PyAnnot.int => Except.ok (kwds, some PyGround.int)
  | some PyAnnot.str => Except.ok (kwds, some PyGround.str)
  | some PyAnnot.noneType => Except.ok (kwds, some PyGround.noneType)
  | Option.none => Except.ok (kwds, Option.none)

/-- The final block of `_GenerateArgumentGetter.__call__` (source lines
335-340): when a coercion type survives, inspect the `value` parameter's
signature default and set `required` / `default`, then set `type`. -/
def applyDefaultAndType (g : Getter) (kwds : Kwds) (ty : Option PyGround) : Kwds :=
  match ty with
  | Option.none => kwds
  | some t =>
      let kwds1 :=
        match g.valueDefault with
        | some d => { kwds with required := false, defaultVal := some d }
        | Option.none => kwds
      { kwds1 with typeVal := some t }

/-- `_GenerateArgumentGetter.__call__` on one getter: produces the
`__argument_info` record attached to the synthesized wrapper, or raises a
definition-time error.  `number` is the current value of the module-global
`__num_arguments` counter. -/
def generateArgumentGetter (g : Getter) (posArgs : List String)
    (nameOpt : Option String) (kwds0 : Kwds) (number : Nat) :
    Except CompileError ArgumentInfo :=
  let kwds1 : Kwds := { kwds0 with required := true }
  let kwds2 : Kwds :=
    match g.doc with
    | some d => { kwds1 with help := some d }
    | Option.none => kwds1
  if kwds2.constFlag then
    -- const branch: the const wrapper is chosen, required is cleared and
    -- the action becomes store_const; the code then still runs the type
    -- inference and default inspection on any declared value annotation.
    let kwds3 : Kwds := { kwds2 with required := false, action := PyAction.storeConst }
    match inferTypeStep kwds3 g.valueAnnot with
    | Except.error e => Except.error e
    | Except.ok (kwds4, ty) =>
        Except.ok
          { getterName := g.name
            customName := nameOpt
            number := number
            posArgs := posArgs
            kwds := applyDefaultAndType g kwds4 ty }
  else if g.valueAnnot.isNone then
    Except.error (CompileError.valueError
      "An argument function should have value parameter.")
  else
    match inferTypeStep kwds2 g.valueAnnot with
    | Except.error e => Except.error e
    | Except.ok (kwds4, ty) =>
        Except.ok
          { getterName := g.name
            customName := nameOpt
            number := number
            posArgs := posArgs
            kwds := applyDefaultAndType g kwds4 ty }

/-- Flag string built from one alias by the `argument(...)` decorator:
one character gives a short `-x` flag, otherwise a long `--x` flag with
underscores replaced by hyphens. -/
def aliasFlag (a : String) : String :=
  if a.length = 1 then "-" ++ a else "--" ++ replaceChar '_' '-' a

/-- The `argument(name, aliases, metavar, choices, const, nargs)` decorator
applied to a getter: assembles the positional flag strings and the keyword
dict and calls the module's `_GenerateArgumentGetter` instance. -/
def argumentDecor (opts : ArgOptions) (g : Getter) (number : Nat) :
    Except CompileError ArgumentInfo :=
  let args := opts.aliases.map aliasFlag
  let kwds : Kwds :=
    { nargsVal := opts.nargsOpt
      constFlag := opts.constOpt
      metavar := opts.metavar }
  generateArgumentGetter g args opts.nameOpt kwds number

/-- Decoration of a class body: the accessors are processed in definition
order, each consuming one value of the module-global counter (which starts
at `n` and increments after every successful decoration). -/
def compileAccessors : Nat → List (ArgOptions × Getter) →
    Except CompileError (List ArgumentInfo)
  | _, [] => Except.ok []
  | n, (opts, g) :: rest =>
      match argumentDecor opts g n with
      | Except.error e => Except.error e
      | Except.ok info =>
          match compileAccessors (n + 1) rest with
          | Except.error e => Except.error e
          | Except.ok infos => Except.ok (info :: infos)

/-! ### Registration (`ArgumentParser.__init__`) and the engine contract -/

/-- The registration unit handed to `argparse.add_argument`, holding the
fields of the engine's compiled action object that the modelled parse
behavior depends on. -/
structure FlagSpec where
  optionStrings : List String
  dest : String
  required : Bool
  action : PyAction
  typeVal : Option PyGround
  nargsVal : Option Nargs
  defaultVal : PyObj
  constVal : PyObj
  helpText : Option String
  metavar : Option String
deriving Repr, DecidableEq

/-- argparse's destination resolution when no explicit `dest` is given:
the first long option string, stripped of its leading dashes, with
hyphens replaced by underscores. -/
def destFromOptionStrings (options : List String) : String :=
  match options.find? (fun o => startsDashDash o) with
  | some o => replaceChar '-' '_' (String.mk (o.data.drop 2))
  | Option.none =>
      replaceChar '-' '_' (String.mk ((options.headD "").data.dropWhile (fun c => c = '-')))

/-- `argparse.add_argument(flag, *posArgs, **kwds)` for the keyword dicts
this library produces.  The stored default is the explicit `default` if
present, else `False` for `store_true` and `None` otherwise; the stored
const value is Python `True` exactly when the decorator put `const=True`
into the dict. -/
def addArgument (flag : String) (posArgs : List String) (kwds : Kwds)
    (destOpt : Option String) : FlagSpec :=
  let options := flag :: posArgs
  { optionStrings := options
    dest :=
      match destOpt with
      | some d => d
      | Option.none => destFromOptionStrings options
    required := kwds.required
    action := kwds.action
    typeVal := kwds.typeVal
    nargsVal := kwds.nargsVal
    defaultVal := kwds.defaultVal.getD
      (if kwds.action = PyAction.storeTrue then PyObj.bool false else PyObj.none)
    constVal := if kwds.constFlag then PyObj.bool true else PyObj.none
    helpText := kwds.help
    metavar := kwds.metavar }

/-- The per-declaration registration step of `ArgumentParser.__init__`
(source lines 238-248): with a custom name the destination is forced to
the getter's name and the flag token uses the custom name; either way the
flag token replaces underscores with hyphens and is prefixed by `--`. -/
def registerInfo (info : ArgumentInfo) : FlagSpec :=
  match info.customName with
  | some nm =>
      addArgument ("--" ++ replaceChar '_' '-' nm) info.posArgs info.kwds
        (some info.getterName)
  | Option.none =>
      addArgument ("--" ++ replaceChar '_' '-' info.getterName) info.posArgs
        info.kwds Option.none

/-- Insertion into a list sorted by `number` (model of Python's
`sorted(arguments, key=lambda x: x[0])`). -/
def insertByNumber (x : ArgumentInfo) : List ArgumentInfo → List ArgumentInfo
  | [] => [x]
  | y :: ys => if x.number < y.number then x :: y :: ys else y :: insertByNumber x ys

/-- Sorting the collected declarations by sequence number ascending. -/
def sortByNumber : List ArgumentInfo → List ArgumentInfo
  | [] => []
  | x :: xs => insertByNumber x (sortByNumber xs)

/-- `ArgumentParser.__init__`'s registration pass: sort the collected
declarations by sequence number and register each with the engine in that
order. -/
def buildSpecs (infos : List ArgumentInfo) : List FlagSpec :=
  (sortByNumber infos).map registerInfo

/-! ### The grammar engine's parse pass -/

/-- The parsed namespace: a finite mapping from destination names to raw
values. -/
abbrev PyNamespace := List (String × PyObj)

/-- `setattr` on the namespace. -/
def nsSet (ns : PyNamespace) (k : String) (v : PyObj) : PyNamespace :=
  match ns with
  | [] => [(k, v)]
  | (k1, v1) :: rest => if k1 = k then (k, v) :: rest else (k1, v1) :: nsSet rest k v

/-- `getattr` on the namespace; a missing attribute raises AttributeError. -/
def nsGet (ns : PyNamespace) (k : String) : Except PyErr PyObj :=
  match ns.find? (fun p => p.1 = k) with
  | some p => Except.ok p.2
  | Option.none => Except.error PyErr.attributeError

/-- argparse's token classification for a parser none of whose option
strings look like negative numbers: a token is option-like when it starts
with a dash, is not the bare dash and is not a negative decimal number. -/
def looksLikeOption (t : String) : Bool :=
  match t.data with
  | '-' :: c :: cs => !((c :: cs).all Char.isDigit)
  | _ => false

/-- Coercion of one raw token through the registered `type`.  No `type`
key means argparse keeps the token string; `str` and `int` are the
callables this library registers on the claims' footprint; `bool` applied
to a string is Python truthiness of a nonempty string; `NoneType` as a
callable fails. -/
def coerceValue (ty : Option PyGround) (t : String) : Except ParseError PyScalar :=
  match ty with
  | Option.none => Except.ok (PyScalar.str t)
  | some PyGround.str => Except.ok (PyScalar.str t)
  | some PyGround.int =>
      match pyParseInt t with
      | some n => Except.ok (PyScalar.int n)
      | Option.none => Except.error ParseError.invalidValue
  | some PyGround.bool => Except.ok (PyScalar.bool (t.data ≠ []))
  | some PyGround.noneType => Except.error ParseError.invalidValue

/-- Coercion of a token run, left to right, first failure wins. -/
def coerceTokens (ty : Option PyGround) : List String →
    Except ParseError (List PyScalar)
  | [] => Except.ok []
  | t :: ts =>
      match coerceValue ty t with
      | Except.error e => Except.error e
      | Except.ok v =>
          match coerceTokens ty ts with
          | Except.error e => Except.error e
          | Except.ok vs => Except.ok (v :: vs)

/-- State of the engine's left-to-right scan between tokens: either idle,
or in the middle of consuming value tokens for a matched option (`single`
for plain `store`, `fixed` for a remaining count, `gather` for
zero-or-more / one-or-more). -/
inductive Pending where
  | idle
  | single (sp : FlagSpec)
  | fixed (sp : FlagSpec) (k : Nat) (acc : List PyScalar)
  | gather (sp : FlagSpec) (needOne : Bool) (acc : List PyScalar)
deriving Repr, DecidableEq

/-- Dispatch on a matched option string. -/
def startFlag (sp : FlagSpec) (ns : PyNamespace) (seen : List String) :
    Except ParseError (PyNamespace × List String × Pending) :=
  match sp.action with
  | PyAction.storeTrue =>
      Except.ok (nsSet ns sp.dest (PyObj.bool true), sp.dest :: seen, Pending.idle)
  | PyAction.storeConst =>
      Except.ok (nsSet ns sp.dest sp.constVal, sp.dest :: seen, Pending.idle)
  | PyAction.store =>
      match sp.nargsVal with
      | Option.none => Except.ok (ns, seen, Pending.single sp)
      | some (Nargs.count k) =>
          if k = 0 then
            -- argparse rejects nargs=0 for store actions at registration;
            -- unreachable from this library, kept total here.
            Except.ok (nsSet ns sp.dest (PyObj.list []), sp.dest :: seen, Pending.idle)
          else Except.ok (ns, seen, Pending.fixed sp k [])
      | some Nargs.star => Except.ok (ns, seen, Pending.gather sp false [])
      | some Nargs.plus => Except.ok (ns, seen, Pending.gather sp true [])

/-- End-of-input (or next-option) resolution of the pending state: a
still-incomplete `single` or `fixed` consumption is an "expected N
arguments" error, a `gather` stores what it collected (erroring when
one-or-more collected nothing). -/
def finalizePending (p : Pending) (ns : PyNamespace) (seen : List String) :
    Except ParseError (PyNamespace × List String) :=
  match p with
  | Pending.idle => Except.ok (ns, seen)
  | Pending.single _ => Except.error ParseError.expectedArguments
  | Pending.fixed _ _ _ => Except.error ParseError.expectedArguments
  | Pending.gather sp needOne acc =>
      if needOne && acc.isEmpty then Except.error ParseError.expectedArguments
      else Except.ok (nsSet ns sp.dest (PyObj.list acc), sp.dest :: seen)

/-- One token of the engine's scan. -/
def stepToken (specs : List FlagSpec) (t : String) (ns : PyNamespace)
    (seen : List String) (p : Pending) :
    Except ParseError (PyNamespace × List String × Pending) :=
  if looksLikeOption t then
    match finalizePending p ns seen with
    | Except.error e => Except.error e
    | Except.ok (ns1, seen1) =>
        match specs.find? (fun sp => sp.optionStrings.contains t) with
        | some sp => startFlag sp ns1 seen1
        | Option.none => Except.error ParseError.unrecognizedArguments
  else
    match p with
    | Pending.idle =>
        -- a positional token: this library registers no positionals, so
        -- argparse reports it as an unrecognized argument.
        Except.error ParseError.unrecognizedArguments
    | Pending.single sp =>
        match coerceValue sp.typeVal t with
        | Except.error e => Except.error e
        | Except.ok v =>
            Except.ok (nsSet ns sp.dest (PyObj.ofScalar v), sp.dest :: seen, Pending.idle)
    | Pending.fixed sp k acc =>
        match coerceValue sp.typeVal t with
        | Except.error e => Except.error e
        | Except.ok v =>
            if k ≤ 1 then
              Except.ok (nsSet ns sp.dest (PyObj.list (acc ++ [v])),
                sp.dest :: seen, Pending.idle)
            else Except.ok (ns, seen, Pending.fixed sp (k - 1) (acc ++ [v]))
    | Pending.gather sp needOne acc =>
        match coerceValue sp.typeVal t with
        | Except.error e => Except.error e
        | Except.ok v => Except.ok (ns, seen, Pending.gather sp needOne (acc ++ [v]))

/-- The engine's scan over the token list. -/
def runTokens (specs : List FlagSpec) : List String → PyNamespace →
    List String → Pending → Except ParseError (PyNamespace × List String)
  | [], ns, seen, p => finalizePending p ns seen
  | t :: rest, ns, seen, p =>
      match stepToken specs t ns seen p with
      | Except.error e => Except.error e
      | Except.ok (ns1, seen1, p1) => runTokens specs rest ns1 seen1 p1

/-- `parser.parse_args(tokens)`: initialize every destination with its
default, scan the tokens, then check that every required option was seen.
An error means argparse terminates the process (SystemExit). -/
def engineParse (specs : List FlagSpec) (tokens : List String) :
    Except ParseError PyNamespace :=
  let ns0 : PyNamespace := specs.map fun sp => (sp.dest, sp.defaultVal)
  match runTokens specs tokens ns0 [] Pending.idle with
  | Except.error e => Except.error e
  | Except.ok (ns, seen) =>
      if specs.all (fun sp => !sp.required || seen.contains sp.dest) then Except.ok ns
      else Except.error ParseError.requiredMissing

/-! ### The configuration instance -/

/-- The mutable state of a configuration instance: the assembled engine
(its registered flag specifications) and the `_ArgumentParser__arguments`
slot, absent until the first successful parse. -/
structure ArgParserState where
  specs : List FlagSpec
  argumentsNS : Option PyNamespace
deriving Repr, DecidableEq

/-- `ArgumentParser.__init__` on the collected declarations: register all
flags in ascending sequence order, then, unless `lazy_parsing`, parse the
ambient process tokens immediately (an engine failure there terminates
the process). -/
def argumentParserInit (infos : List ArgumentInfo) (lazyParsing : Bool)
    (procTokens : List String) : Except ParseError ArgParserState :=
  let specs := buildSpecs infos
  if lazyParsing then Except.ok { specs := specs, argumentsNS := Option.none }
  else
    match engineParse specs procTokens with
    | Except.error e => Except.error e
    | Except.ok ns => Except.ok { specs := specs, argumentsNS := some ns }

/-- `ArgumentParser.parse_args(parameter)`: re-tokenize the string by
whitespace and reassign `self.__arguments` with the engine's result.  The
pair returned models the heap after the call: on an engine error the
SystemExit propagates out of the assignment's right-hand side, so the
instance state is returned unchanged alongside the error. -/
def parseArgs (st : ArgParserState) (parameter : String) :
    Option ParseError × ArgParserState :=
  match engineParse st.specs (pySplit parameter) with
  | Except.ok ns => (Option.none, { st with argumentsNS := some ns })
  | Except.error e => (some e, st)

/-- The `arguments` property: reading `self.__arguments` raises
AttributeError when no parse has stored it yet. -/
def getArgumentsProp (st : ArgParserState) : Except PyErr PyNamespace :=
  match st.argumentsNS with
  | some ns => Except.ok ns
  | Option.none => Except.error PyErr.attributeError

/-- The synthesized `_wrapper` accessor: fetch the raw field named by the
getter's own name from the current namespace and apply the getter (the
transform) to it.  The transform receives the instance (`self`) and the
raw value and may itself raise. -/
def plainPropertyRead (argumentName : String)
    (transform : ArgParserState → PyObj → Except PyErr PyObj)
    (st : ArgParserState) : Except PyErr PyObj :=
  match getArgumentsProp st with
  | Except.error e => Except.error e
  | Except.ok ns =>
      match nsGet ns argumentName with
      | Except.error e => Except.error e
      | Except.ok v => transform st v

/-- The synthesized `const_wrapper` accessor: `None` short-circuits
without invoking the getter, any other raw value invokes the getter with
no value argument. -/
def constPropertyRead (argumentName : String)
    (getterBody : ArgParserState → Except PyErr PyObj)
    (st : ArgParserState) : Except PyErr PyObj :=
  match getArgumentsProp st with
  | Except.error e => Except.error e
  | Except.ok ns =>
      match nsGet ns argumentName with
      | Except.error e => Except.error e
      | Except.ok v =>
          if v = PyObj.none then Except.ok PyObj.none else getterBody st

/-! ### `ArgumentParser.__new__`: per-class caching through the MRO -/

/-- A constructed Python instance, identified by creation order and
carrying its exact concrete class. -/
structure PyInstance where
  instId : Nat
  ofClass : Nat
deriving Repr, DecidableEq

/-- The global state of `__new__`: each class's own `__object__` attribute
(absent entries fall back through the MRO to the root's `None`), plus a
counter freshening instance identities. -/
structure NewState where
  cache : List (Nat × PyInstance)
  nextId : Nat
deriving Repr, DecidableEq

/-- Lookup of a class's own `__object__` attribute. -/
def cacheFind (cache : List (Nat × PyInstance)) (c : Nat) : Option PyInstance :=
  (cache.find? (fun p => p.1 = c)).map (fun p => p.2)

/-- Reading `cls.__object__`: Python attribute lookup walks the MRO and
returns the first class's own attribute; with no own attribute anywhere
the root `ArgumentParser.__object__ = None` is found. -/
def lookupDunderObject (mro : Nat → List Nat) (st : NewState) (cls : Nat) :
    Option PyInstance :=
  (mro cls).findSome? (fun c => cacheFind st.cache c)

/-- `ArgumentParser.__new__(cls)`: if `cls.__object__` is `None`, create a
fresh instance of `cls` and store it as `cls`'s own attribute; either way
return `cls.__object__`. -/
def pyNew (mro : Nat → List Nat) (st : NewState) (cls : Nat) :
    PyInstance × NewState :=
  match lookupDunderObject mro st cls with
  | some inst => (inst, st)
  | Option.none =>
      let inst : PyInstance := { instId := st.nextId, ofClass := cls }
      (inst, { cache := (cls, inst) :: st.cache, nextId := st.nextId + 1 })

/-! ### The test configuration class

The `Argument` class of `src/tests/test_argparser.py`, embedded accessor
by accessor in definition order.  None of its getters carries a
docstring; the bodies of `foo`, `property_name`, `nargs` and `boolean`
are the bare `...` expression, which returns `None` when called. -/

/-- `foo(self, value: str) -> str`, body `...`. -/
def fooGetter : Getter :=
  { name := "foo", valueAnnot := some PyAnnot.str }

/-- `property_name(self, value: str = "") -> str`, decorated with
`argument(name="name")`, body `...`. -/
def propertyNameGetter : Getter :=
  { name := "property_name"
    valueAnnot := some PyAnnot.str
    valueDefault := some (PyObj.str "") }

/-- `bar(self, value: int = 0)`, decorated with `argument(aliases="b")`. -/
def barGetter : Getter :=
  { name := "bar", valueAnnot := some PyAnnot.int, valueDefault := some (PyObj.int 0) }

/-- `baz(self, value: Optional[str])`, decorated with
`argument(aliases=["z", "az"])`. -/
def bazGetter : Getter :=
  { name := "baz"
    valueAnnot := some (PyAnnot.unionOf [PyGround.str, PyGround.noneType]) }

/-- `const(self)`, decorated with `argument(const=True)`. -/
def constGetter : Getter :=
  { name := "const" }

/-- `nargs(self, value: List[int])`, decorated with
`argument(nargs=3, metavar="N")`, body `...`. -/
def nargsGetter : Getter :=
  { name := "nargs", valueAnnot := some (PyAnnot.listOf [PyGround.int]) }

/-- `boolean(self, value: bool)`, body `...`. -/
def booleanGetter : Getter :=
  { name := "boolean", valueAnnot := some PyAnnot.bool }

/-- `optional(self, value: int = 3) -> int`. -/
def optionalGetter : Getter :=
  { name := "optional", valueAnnot := some PyAnnot.int, valueDefault := some (PyObj.int 3) }

/-- The class body of `Argument` in definition order, pairing each
getter with its decorator options. -/
def argumentAccessors : List (ArgOptions × Getter) :=
  [ ({}, fooGetter)
  , ({ nameOpt := some "name" }, propertyNameGetter)
  , ({ aliases := ["b"] }, barGetter)
  , ({ aliases := ["z", "az"] }, bazGetter)
  , ({ constOpt := true }, constGetter)
  , ({ nargsOpt := some (Nargs.count 3), metavar := some "N" }, nargsGetter)
  , ({}, booleanGetter)
  , ({}, optionalGetter) ]

/-- The declarations of the `Argument` class, decorated with the module
counter starting at 0 (decoration succeeds on this class). -/
def argumentInfos : List ArgumentInfo :=
  match compileAccessors 0 argumentAccessors with
  | Except.ok infos => infos
  | Except.error _ => []

/-- The flag specifications registered by constructing the test class. -/
def argumentSpecs : List FlagSpec := buildSpecs argumentInfos

/-- The instance state after `AdditionalArgument(lazy_parsing=True)` (the
subclass adds nothing, so its collected declarations are unchanged). -/
def argumentLazyState : ArgParserState :=
  { specs := argumentSpecs, argumentsNS := Option.none }

/-- Transform of `foo`: the body is `...`, so the call returns `None`. -/
def fooTransform (_s : ArgParserState) (_v : PyObj) : Except PyErr PyObj :=
  Except.ok PyObj.none

/-- Transform of `bar`: `return value + 1`; on a non-integer value the
Python addition would raise. -/
def barTransform (_s : ArgParserState) (v : PyObj) : Except PyErr PyObj :=
  match v with
  | PyObj.int n => Except.ok (PyObj.int (n + 1))
  | _ => Except.error PyErr.typeErrorRT

/-- Transform of `baz`: `None` maps to the empty list, a string maps to
`value.split("/")`. -/
def bazTransform (_s : ArgParserState) (v : PyObj) : Except PyErr PyObj :=
  match v with
  | PyObj.none => Except.ok (PyObj.list [])
  | PyObj.str t => Except.ok (PyObj.list ((pySplitOnChar '/' t).map PyScalar.str))
  | _ => Except.error PyErr.typeErrorRT

/-- The `foo` property of the test class. -/
def fooProp (st : ArgParserState) : Except PyErr PyObj :=
  plainPropertyRead "foo" fooTransform st

/-- The `bar` property of the test class. -/
def barProp (st : ArgParserState) : Except PyErr PyObj :=
  plainPropertyRead "bar" barTransform st

/-- The `baz` property of the test class. -/
def bazProp (st : ArgParserState) : Except PyErr PyObj :=
  plainPropertyRead "baz" bazTransform st

/-- The `const` property of the test class (`return 40`). -/
def constProp (st : ArgParserState) : Except PyErr PyObj :=
  constPropertyRead "const" (fun _ => Except.ok (PyObj.int 40)) st


/-! ### A minimal list-typed configuration class (used for C1) -/

/-- A single accessor `lst(self, value: List[int])` with no parameter
default, decorated with bare `@argument`. -/
def lstGetter : Getter :=
  { name := "lst", valueAnnot := some (PyAnnot.listOf [PyGround.int]) }

/-- Declarations of the one-accessor list class. -/
def lstInfos : List ArgumentInfo :=
  match compileAccessors 0 [({}, lstGetter)] with
  | Except.ok infos => infos
  | Except.error _ => []

/-- Registered flags of the one-accessor list class. -/
def lstSpecs : List FlagSpec := buildSpecs lstInfos

/-! ### Derived compile results and auxiliary scenarios used by the theorems -/

/-- The declaration the compiler produces for a bare `@argument` accessor
with annotation `List[T]` and no parameter default (proved equal to the
compiler's output inside the C1 theorem). -/
def listAccessorInfo (nm : String) (doc : Option String) (T : PyGround)
    (k : Nat) : ArgumentInfo :=
  { getterName := nm
    customName := Option.none
    number := k
    posArgs := []
    kwds :=
      { required := true
        help := doc
        action := PyAction.store
        nargsVal := some Nargs.star
        typeVal := some T
        defaultVal := Option.none
        constFlag := false
        metavar := Option.none } }

/-- The flag specification registered for `listAccessorInfo`. -/
def listAccessorSpec (nm : String) (doc : Option String) (T : PyGround) : FlagSpec :=
  { optionStrings := ["--" ++ replaceChar '_' '-' nm]
    dest := replaceChar '-' '_' (replaceChar '_' '-' nm)
    required := true
    action := PyAction.store
    typeVal := some T
    nargsVal := some Nargs.star
    defaultVal := PyObj.none
    constVal := PyObj.none
    helpText := doc
    metavar := Option.none }

/-- The declaration the compiler produces for an `argument(const=True)`
accessor with no `value` parameter (proved equal to the compiler's output
inside the C3 theorem). -/
def constAccessorInfo (nm : String) (doc : Option String) (k : Nat) : ArgumentInfo :=
  { getterName := nm
    customName := Option.none
    number := k
    posArgs := []
    kwds :=
      { required := false
        help := doc
        action := PyAction.storeConst
        nargsVal := Option.none
        typeVal := Option.none
        defaultVal := Option.none
        constFlag := true
        metavar := Option.none } }

/-- The flag specification registered for `constAccessorInfo`. -/
def constAccessorSpec (nm : String) (doc : Option String) : FlagSpec :=
  { optionStrings := ["--" ++ replaceChar '_' '-' nm]
    dest := replaceChar '-' '_' (replaceChar '_' '-' nm)
    required := false
    action := PyAction.storeConst
    typeVal := Option.none
    nargsVal := Option.none
    defaultVal := PyObj.none
    constVal := PyObj.bool true
    helpText := doc
    metavar := Option.none }

/-- Empty `__new__` state: no class has its own `__object__` yet. -/
def newStateEmpty : NewState := { cache := [], nextId := 0 }

/-- A two-class hierarchy: class 0 is the base, class 1 its subclass. -/
def mroBaseDerived : Nat → List Nat := fun c => if c = 1 then [1, 0] else [0]


/-! ### Computation lemmas for the engine model -/

/-- A long flag token is always classified as an option. -/

lemma flagTokOption (s : String) : looksLikeOption ("--" ++ s) = true := rfl

/-- Destination resolution on a leading long option string. -/

lemma destDashDash (s : String) (rest : List String) :
    destFromOptionStrings (("--" ++ s) :: rest) = replaceChar '-' '_' s := rfl

/-- Setting the only key of a one-entry namespace. -/

lemma nsSetSingle (nm : String) (v0 v : PyObj) : nsSet [(nm, v0)] nm v = [(nm, v)] := by
  simp [nsSet]

/-- Reading the only key of a one-entry namespace. -/

lemma nsGetSingle (nm : String) (v : PyObj) : nsGet [(nm, v)] nm = Except.ok v := by
  simp [nsGet]

/-- A zero-or-more consumption scans a run of non-option tokens, coerces
them in order and stores the accumulated list. -/

lemma runTokensGatherValues (specs : List FlagSpec) (sp : FlagSpec) :
    ∀ (vs : List String) (ns : PyNamespace) (seen : List String) (acc pvs : List PyScalar),
      (∀ v ∈ vs, looksLikeOption v = false) →
      coerceTokens sp.typeVal vs = Except.ok pvs →
      runTokens specs vs ns seen (Pending.gather sp false acc) =
        Except.ok (nsSet ns sp.dest (PyObj.list (acc ++ pvs)), sp.dest :: seen) := by
  intro vs
  induction vs with
  | nil =>
      intro ns seen acc pvs hv hc
      simp [coerceTokens] at hc
      subst hc
      simp [runTokens, finalizePending]
  | cons v vs ih =>
      intro ns seen acc pvs hv hc
      cases heq : coerceValue sp.typeVal v with
      | error e => rw [coerceTokens, heq] at hc; simp at hc
      | ok v1 =>
          rw [coerceTokens, heq] at hc
          cases heq2 : coerceTokens sp.typeVal vs with
          | error e => rw [heq2] at hc; simp at hc
          | ok pvs1 =>
              rw [heq2] at hc
              simp at hc
              subst hc
              have hvhead : looksLikeOption v = false := hv v (List.mem_cons_self v vs)
              rw [runTokens, stepToken]
              simp [hvhead, heq]
              rw [ih ns seen (acc ++ [v1]) pvs1
                (fun u hu => hv u (List.mem_cons_of_mem v hu)) heq2]
              simp

/-- A single required flag makes the empty input fail the required check. -/

lemma engineParseRequiredAbsent (sp : FlagSpec) (hreq : sp.required = true) :
    engineParse [sp] [] = Except.error ParseError.requiredMissing := by
  simp [engineParse, runTokens, finalizePending, hreq]

/-- A single non-required flag parses the empty input to its default. -/

lemma engineParseEmptyOk (sp : FlagSpec) (hreq : sp.required = false) :
    engineParse [sp] [] = Except.ok [(sp.dest, sp.defaultVal)] := by
  simp [engineParse, runTokens, finalizePending, hreq]

/-- A single zero-or-more flag followed by its value-token run parses to
the coerced list in input order. -/

lemma engineParseStarPresent (sp : FlagSpec) (t : String) (vs : List String)
    (pvs : List PyScalar)
    (hact : sp.action = PyAction.store) (hn : sp.nargsVal = some Nargs.star)
    (hopt : sp.optionStrings = [t]) (ht : looksLikeOption t = true)
    (hvs : ∀ v ∈ vs, looksLikeOption v = false)
    (hc : coerceTokens sp.typeVal vs = Except.ok pvs) :
    engineParse [sp] (t :: vs) = Except.ok [(sp.dest, PyObj.list pvs)] := by
  rw [engineParse]
  rw [runTokens, stepToken]
  simp [ht, finalizePending, hopt, startFlag, hact, hn]
  rw [runTokensGatherValues [sp] sp vs _ _ [] pvs hvs hc]
  simp [nsSetSingle]

/-- A single constant flag consumes no value token and stores its const. -/

lemma engineParseConstPresent (sp : FlagSpec) (t : String)
    (hact : sp.action = PyAction.storeConst)
    (hopt : sp.optionStrings = [t]) (ht : looksLikeOption t = true) :
    engineParse [sp] [t] = Except.ok [(sp.dest, sp.constVal)] := by
  rw [engineParse]
  rw [runTokens, stepToken]
  simp [ht, finalizePending, hopt, startFlag, hact]
  simp [runTokens, finalizePending, nsSetSingle]

/-- A value token after a constant flag is not consumed by the flag: it is
rejected as an unrecognized (positional) argument. -/

lemma engineParseConstExtraToken (sp : FlagSpec) (t w : String)
    (hact : sp.action = PyAction.storeConst)
    (hopt : sp.optionStrings = [t]) (ht : looksLikeOption t = true)
    (hw : looksLikeOption w = false) :
    engineParse [sp] [t, w] = Except.error ParseError.unrecognizedArguments := by
  rw [engineParse]
  rw [runTokens, stepToken]
  simp [ht, finalizePending, hopt, startFlag, hact]
  simp [runTokens, stepToken, hw]

/-! ### Compile results for the generic one-accessor classes of C1 and C3 -/

/-- **C1** (amended): an accessor declaring `List[T]` with the default
arity compiles to a *required* zero-or-more flag, so input lacking the
flag is rejected by the engine (process termination) instead of yielding
the transform of an empty sequence; input containing the flag followed by
its value tokens yields the transform applied to the coerced sequence in
input order (the empty sequence when the flag is present with no values).
The hypotheses say that the accessor name survives the flag-token
round-trip and that every value token is a non-option token that coerces. -/

theorem c1_list_star (nm : String) (doc : Option String) (T : PyGround) (k : Nat)
    (vs : List String) (pvs : List PyScalar)
    (f : ArgParserState → PyObj → Except PyErr PyObj)
    (hdest : replaceChar '-' '_' (replaceChar '_' '-' nm) = nm)
    (hvs : ∀ v ∈ vs, looksLikeOption v = false)
    (hc : coerceTokens (some T) vs = Except.ok pvs) :
    ∃ info,
      argumentDecor {} { name := nm, doc := doc, valueAnnot := some (PyAnnot.listOf [T]) } k = Except.ok info ∧
      info.kwds.required = true ∧
      info.kwds.nargsVal = some Nargs.star ∧
      engineParse (buildSpecs [info]) [] = Except.error ParseError.requiredMissing ∧
      engineParse (buildSpecs [info]) (("--" ++ replaceChar '_' '-' nm) :: vs) =
        Except.ok [(nm, PyObj.list pvs)] ∧
      plainPropertyRead nm f
          { specs := buildSpecs [info], argumentsNS := some [(nm, PyObj.list pvs)] } =
        f { specs := buildSpecs [info], argumentsNS := some [(nm, PyObj.list pvs)] }
          (PyObj.list pvs) := by
  have hsp : buildSpecs [listAccessorInfo nm doc T k] = [listAccessorSpec nm doc T] := rfl
  have hsp1 : (listAccessorSpec nm doc T).dest = nm := hdest
  refine ⟨listAccessorInfo nm doc T k, ?_, rfl, rfl, ?_, ?_, ?_⟩
  · cases doc <;> rfl
  · rw [hsp]
    exact engineParseRequiredAbsent (listAccessorSpec nm doc T) rfl
  · rw [hsp]
    have h2 := engineParseStarPresent (listAccessorSpec nm doc T) _ vs pvs rfl rfl rfl
      (flagTokOption _) hvs hc
    rw [hsp1] at h2
    exact h2
  · simp [plainPropertyRead, getArgumentsProp, nsGetSingle]

/-- **C3**: a const-mode accessor (const=True, no `value` parameter)
registers a zero-arity, non-required `store_const` flag.  After parsing
input without the flag the raw value is `None` and the property yields
`None` for *every* getter body (the transform is never invoked); after
parsing input with the flag the property yields the getter body's result;
and the flag consumes no value token (a following non-option token is
rejected as unrecognized). -/

theorem c3_const_mode (nm : String) (doc : Option String) (k : Nat)
    (hdest : replaceChar '-' '_' (replaceChar '_' '-' nm) = nm) :
    ∃ info,
      argumentDecor { constOpt := true } { name := nm, doc := doc } k = Except.ok info ∧
      info.kwds.required = false ∧
      info.kwds.action = PyAction.storeConst ∧
      engineParse (buildSpecs [info]) [] = Except.ok [(nm, PyObj.none)] ∧
      (∀ g, constPropertyRead nm g
          { specs := buildSpecs [info], argumentsNS := some [(nm, PyObj.none)] } =
        Except.ok PyObj.none) ∧
      engineParse (buildSpecs [info]) ["--" ++ replaceChar '_' '-' nm] =
        Except.ok [(nm, PyObj.bool true)] ∧
      (∀ g, constPropertyRead nm g
          { specs := buildSpecs [info], argumentsNS := some [(nm, PyObj.bool true)] } =
        g { specs := buildSpecs [info], argumentsNS := some [(nm, PyObj.bool true)] }) ∧
      (∀ w, looksLikeOption w = false →
        engineParse (buildSpecs [info]) ["--" ++ replaceChar '_' '-' nm, w] =
          Except.error ParseError.unrecognizedArguments) := by
  have hsp : buildSpecs [constAccessorInfo nm doc k] = [constAccessorSpec nm doc] := rfl
  have hsp1 : (constAccessorSpec nm doc).dest = nm := hdest
  refine ⟨constAccessorInfo nm doc k, ?_, rfl, rfl, ?_, ?_, ?_, ?_, ?_⟩
  · cases doc <;> rfl
  · rw [hsp]
    have h2 := engineParseEmptyOk (constAccessorSpec nm doc) rfl
    rw [hsp1] at h2
    exact h2
  · intro g
    simp [constPropertyRead, getArgumentsProp, nsGetSingle]
  · rw [hsp]
    have h2 := engineParseConstPresent (constAccessorSpec nm doc) _ rfl rfl (flagTokOption _)
    rw [hsp1] at h2
    exact h2
  · intro g
    simp [constPropertyRead, getArgumentsProp, nsGetSingle]
  · intro w hw
    rw [hsp]
    exact engineParseConstExtraToken (constAccessorSpec nm doc) _ w rfl rfl
      (flagTokOption _) hw

/-- Witness for C1 at a concrete accessor `lst(self, value: List[int])`
with value tokens `1 2`. -/

theorem c1_list_star_witness :
    ∃ info,
      argumentDecor {} { name := "lst", doc := Option.none, valueAnnot := some (PyAnnot.listOf [PyGround.int]) } 0 = Except.ok info ∧
      info.kwds.required = true ∧
      info.kwds.nargsVal = some Nargs.star ∧
      engineParse (buildSpecs [info]) [] = Except.error ParseError.requiredMissing ∧
      engineParse (buildSpecs [info]) (("--" ++ replaceChar '_' '-' "lst") :: ["1", "2"]) =
        Except.ok [("lst", PyObj.list [PyScalar.int 1, PyScalar.int 2])] ∧
      plainPropertyRead "lst" (fun _ v => Except.ok v)
          { specs := buildSpecs [info]
            argumentsNS := some [("lst", PyObj.list [PyScalar.int 1, PyScalar.int 2])] } =
        Except.ok (PyObj.list [PyScalar.int 1, PyScalar.int 2]) :=
  c1_list_star "lst" Option.none PyGround.int 0 ["1", "2"]
    [PyScalar.int 1, PyScalar.int 2] (fun _ v => Except.ok v)
    (by decide) (by decide) (by decide)

/-- **C1** (counterexample to the claim as stated): the one-accessor class
declaring `lst(self, value: List[int])` with default arity compiles to a
required flag, so parsing input in which the flag is absent terminates
the process (`requiredMissing` SystemExit) instead of yielding the
transform applied to an empty sequence. -/

theorem c1_counterexample :
    engineParse lstSpecs [] = Except.error ParseError.requiredMissing ∧
    (parseArgs { specs := lstSpecs, argumentsNS := Option.none } "").1 =
      some ParseError.requiredMissing := by
  refine ⟨by decide, by decide⟩

/-- Witness for C3 at a concrete const accessor named `c`. -/

theorem c3_const_mode_witness :
    ∃ info,
      argumentDecor { constOpt := true } { name := "c", doc := Option.none } 0 = Except.ok info ∧
      info.kwds.required = false ∧
      info.kwds.action = PyAction.storeConst ∧
      engineParse (buildSpecs [info]) [] = Except.ok [("c", PyObj.none)] ∧
      (∀ g, constPropertyRead "c" g
          { specs := buildSpecs [info], argumentsNS := some [("c", PyObj.none)] } =
        Except.ok PyObj.none) ∧
      engineParse (buildSpecs [info]) ["--" ++ replaceChar '_' '-' "c"] =
        Except.ok [("c", PyObj.bool true)] ∧
      (∀ g, constPropertyRead "c" g
          { specs := buildSpecs [info], argumentsNS := some [("c", PyObj.bool true)] } =
        g { specs := buildSpecs [info], argumentsNS := some [("c", PyObj.bool true)] }) ∧
      (∀ w, looksLikeOption w = false →
        engineParse (buildSpecs [info]) ["--" ++ replaceChar '_' '-' "c", w] =
          Except.error ParseError.unrecognizedArguments) :=
  c3_const_mode "c" Option.none 0 (by decide)

/-- **C2**: the concrete test scenario.  The code agrees with the claim on
`bar`, `baz` and the SystemExit for empty input, but diverges on `foo`:
the test getter's body is the bare `...` (returning `None`) and the
synthesized `_wrapper` returns the getter's result, so the `foo` property
evaluates to `None`, not `"foo"` as the repository's own test
`test_basic_args` (and the decorator's overload for getters returning
`None`) require. -/

theorem c2_scenario_behavior :
    (parseArgs argumentLazyState "--foo foo --nargs 1 2 3 --bar 3 --baz foo/bar").1 =
      Option.none ∧
    fooProp (parseArgs argumentLazyState "--foo foo --nargs 1 2 3 --bar 3 --baz foo/bar").2 =
      Except.ok PyObj.none ∧
    fooProp (parseArgs argumentLazyState "--foo foo --nargs 1 2 3 --bar 3 --baz foo/bar").2 ≠
      Except.ok (PyObj.str "foo") ∧
    barProp (parseArgs argumentLazyState "--foo foo --nargs 1 2 3 --bar 3 --baz foo/bar").2 =
      Except.ok (PyObj.int 4) ∧
    bazProp (parseArgs argumentLazyState "--foo foo --nargs 1 2 3 --bar 3 --baz foo/bar").2 =
      Except.ok (PyObj.list [PyScalar.str "foo", PyScalar.str "bar"]) ∧
    (parseArgs argumentLazyState "--foo foo --nargs 1 2 3").1 = Option.none ∧
    barProp (parseArgs argumentLazyState "--foo foo --nargs 1 2 3").2 =
      Except.ok (PyObj.int 1) ∧
    bazProp (parseArgs argumentLazyState "--foo foo --nargs 1 2 3").2 =
      Except.ok (PyObj.list []) ∧
    (parseArgs argumentLazyState "").1 = some ParseError.requiredMissing := by
  decide

/-- **C9**: with `lazy_parsing = true` construction stores no namespace,
and reading `arguments`, any plain property or any const property before
the first `parse_args` call raises AttributeError. -/

theorem c9_lazy_attribute_error :
    ∀ (infos : List ArgumentInfo) (procTokens : List String),
      argumentParserInit infos true procTokens =
        Except.ok { specs := buildSpecs infos, argumentsNS := Option.none } ∧
      getArgumentsProp { specs := buildSpecs infos, argumentsNS := Option.none } =
        Except.error PyErr.attributeError ∧
      (∀ (nm : String) (f : ArgParserState → PyObj → Except PyErr PyObj),
        plainPropertyRead nm f { specs := buildSpecs infos, argumentsNS := Option.none } =
          Except.error PyErr.attributeError) ∧
      (∀ (nm : String) (g : ArgParserState → Except PyErr PyObj),
        constPropertyRead nm g { specs := buildSpecs infos, argumentsNS := Option.none } =
          Except.error PyErr.attributeError) := by
  intro infos procTokens
  exact ⟨rfl, rfl, fun nm f => rfl, fun nm g => rfl⟩

/-- **C10**: `parse_args` is atomic on failure: when the engine rejects
the parameter string, the SystemExit propagates out of the right-hand
side of the assignment, the stored namespace is not reassigned, and every
property read after the failed call sees the previous state. -/

theorem c10_parse_failure_atomic :
    ∀ (st : ArgParserState) (p : String) (e : ParseError),
      (parseArgs st p).1 = some e →
      (parseArgs st p).2 = st ∧
      (parseArgs st p).2.argumentsNS = st.argumentsNS ∧
      (∀ (nm : String) (f : ArgParserState → PyObj → Except PyErr PyObj),
        plainPropertyRead nm f (parseArgs st p).2 = plainPropertyRead nm f st) := by
  intro st p e h
  cases heq : engineParse st.specs (pySplit p) with
  | ok ns => simp [parseArgs, heq] at h
  | error e1 => simp [parseArgs, heq]

/-- Witness for C10: a failed re-parse on the `lst` class instance leaves
its previously parsed namespace in place. -/

theorem c10_parse_failure_atomic_witness :
    (parseArgs { specs := lstSpecs, argumentsNS := some [("lst", PyObj.list [])] } "").1 =
      some ParseError.requiredMissing ∧
    (parseArgs { specs := lstSpecs, argumentsNS := some [("lst", PyObj.list [])] } "").2 =
      { specs := lstSpecs, argumentsNS := some [("lst", PyObj.list [])] } :=
  ⟨by decide,
    (c10_parse_failure_atomic
      { specs := lstSpecs, argumentsNS := some [("lst", PyObj.list [])] } ""
      ParseError.requiredMissing (by decide)).1⟩

/-- **C7**: a property read depends only on the currently stored

namespace (the transform is re-applied to the stored raw value on every
access, never memoized), and two successive successful `parse_args` calls
leave exactly the state that parsing the second input alone would leave:
nothing from the first parse survives. -/

theorem c7_reparse_replaces_state :
    (∀ (nm : String) (f : PyObj → Except PyErr PyObj) (st st1 : ArgParserState),
        st.argumentsNS = st1.argumentsNS →
        plainPropertyRead nm (fun _ v => f v) st =
          plainPropertyRead nm (fun _ v => f v) st1) ∧
    (∀ (nm : String) (r : Except PyErr PyObj) (st st1 : ArgParserState),
        st.argumentsNS = st1.argumentsNS →
        constPropertyRead nm (fun _ => r) st = constPropertyRead nm (fun _ => r) st1) ∧
    (∀ (st st1 st2 : ArgParserState) (p1 p2 : String),
        parseArgs st p1 = (Option.none, st1) →
        parseArgs st1 p2 = (Option.none, st2) →
        parseArgs st p2 = (Option.none, st2)) := by
  refine ⟨?_, ?_, ?_⟩
  · intro nm f st st1 h
    simp [plainPropertyRead, getArgumentsProp, h]
  · intro nm r st st1 h
    simp [constPropertyRead, getArgumentsProp, h]
  · intro st st1 st2 p1 p2 h1 h2
    cases heq1 : engineParse st.specs (pySplit p1) with
    | error e => simp [parseArgs, heq1] at h1
    | ok n1 =>
        simp [parseArgs, heq1] at h1
        subst h1
        cases heq2 : engineParse st.specs (pySplit p2) with
        | error e => simp [parseArgs, heq2] at h2
        | ok n2 =>
            simp [parseArgs, heq2] at h2 ⊢
            exact h2

/-- Witness for C7: re-parsing the test class with a second input leaves
exactly the state that parsing the second input alone produces. -/

theorem c7_reparse_replaces_state_witness :
    parseArgs argumentLazyState "--foo b --nargs 4 5 6" =
      (Option.none,
        (parseArgs (parseArgs argumentLazyState "--foo a --nargs 1 2 3").2
          "--foo b --nargs 4 5 6").2) :=
  c7_reparse_replaces_state.2.2 argumentLazyState
    (parseArgs argumentLazyState "--foo a --nargs 1 2 3").2
    (parseArgs (parseArgs argumentLazyState "--foo a --nargs 1 2 3").2
      "--foo b --nargs 4 5 6").2
    "--foo a --nargs 1 2 3" "--foo b --nargs 4 5 6" (by decide) (by decide)

/-! ### C5: the `__new__` cache through the MRO -/

/-- **C5** (counterexample to the claim as stated): constructing the base
class 0 first and then its subclass 1 returns the base's cached instance
for the subclass construction - the identical object, whose concrete
class is 0, not 1.  Distinct classes do not each get their own instance. -/

theorem c5_counterexample :
    (pyNew mroBaseDerived (pyNew mroBaseDerived newStateEmpty 0).2 1).1 =
      (pyNew mroBaseDerived newStateEmpty 0).1 ∧
    (pyNew mroBaseDerived (pyNew mroBaseDerived newStateEmpty 0).2 1).1.ofClass = 0 := by
  refine ⟨by decide, by decide⟩

/-- **C5** (amended): constructing the same class a second time returns
the identical object of the first construction (and leaves the cache
unchanged); and a class constructed while no class of its MRO holds a
cached instance receives a fresh instance of exactly that class, cached
under its own name.  A subclass constructed after an ancestor instead
inherits the ancestor's cached instance (see the counterexample). -/

theorem c5_singleton_per_class :
    ∀ (mro : Nat → List Nat) (st : NewState) (cls : Nat) (rest : List Nat),
      mro cls = cls :: rest →
      (pyNew mro (pyNew mro st cls).2 cls = pyNew mro st cls) ∧
      (lookupDunderObject mro st cls = Option.none →
        (pyNew mro st cls).1.ofClass = cls ∧
        cacheFind (pyNew mro st cls).2.cache cls = some (pyNew mro st cls).1) := by
  intro mro st cls rest hmro
  cases hl : lookupDunderObject mro st cls with
  | some inst =>
      refine ⟨by simp [pyNew, hl], ?_⟩
      intro hnone
      exact Option.noConfusion hnone
  | none =>
      refine ⟨?_, ?_⟩
      · have hcf : cacheFind
            ((cls, { instId := st.nextId, ofClass := cls }) :: st.cache) cls =
            some { instId := st.nextId, ofClass := cls } := by
          simp [cacheFind]
        have hl2 : lookupDunderObject mro
            { cache := (cls, { instId := st.nextId, ofClass := cls }) :: st.cache
              nextId := st.nextId + 1 } cls =
            some { instId := st.nextId, ofClass := cls } := by
          simp [lookupDunderObject, hmro, hcf]
        simp [pyNew, hl, hl2]
      · intro _
        constructor
        · simp [pyNew, hl]
        · simp [pyNew, hl, cacheFind]

/-- Witness for C5: the base class constructed on the empty cache gets a
fresh instance of itself, and reconstruction returns the same object. -/

theorem c5_singleton_per_class_witness :
    (pyNew mroBaseDerived (pyNew mroBaseDerived newStateEmpty 0).2 0 =
      pyNew mroBaseDerived newStateEmpty 0) ∧
    (pyNew mroBaseDerived newStateEmpty 0).1.ofClass = 0 :=
  ⟨(c5_singleton_per_class mroBaseDerived newStateEmpty 0 [] (by decide)).1,
   ((c5_singleton_per_class mroBaseDerived newStateEmpty 0 [] (by decide)).2
      (by decide)).1⟩

/-! ### C6: const mode and the declared value type -/

/-- **C6** (counterexample to the claim as stated): with `const=True`, a
declared `value` parameter *does* change the compiled specification: a
`bool` annotation overwrites the action to `store_true` (instead of
`store_const`), and an `int` annotation with a parameter default
registers a coercion type and a default.  Only the annotation-free const
shape is independent of the getter's signature. -/

theorem c6_counterexample :
    (argumentDecor { constOpt := true } { name := "c", valueAnnot := some PyAnnot.bool } 0).map
        (fun i => i.kwds.action) = Except.ok PyAction.storeTrue ∧
    (argumentDecor { constOpt := true } { name := "c" } 0).map
        (fun i => i.kwds.action) = Except.ok PyAction.storeConst ∧
    (argumentDecor { constOpt := true }
        { name := "c", valueAnnot := some PyAnnot.int, valueDefault := some (PyObj.int 5) } 0).map
        (fun i => (i.kwds.typeVal, i.kwds.defaultVal)) =
      Except.ok (some PyGround.int, some (PyObj.int 5)) := by
  refine ⟨by decide, by decide, by decide⟩

/-- **C6** (amended): when `options.const` is truthy and the accessor
declares no `value` parameter (the const API shape), the compiled flag
specification is required = false, action = store_const, with no coercion
type and no default, and it is independent of the signature's parameter
default. -/

theorem c6_const_spec_shape :
    ∀ (opts : ArgOptions) (g : Getter) (k : Nat),
      opts.constOpt = true → g.valueAnnot = Option.none →
      ∃ info, argumentDecor opts g k = Except.ok info ∧
        info.kwds.required = false ∧
        info.kwds.action = PyAction.storeConst ∧
        info.kwds.typeVal = Option.none ∧
        info.kwds.defaultVal = Option.none ∧
        info.kwds.constFlag = true ∧
        (∀ d, argumentDecor opts { g with valueDefault := d } k =
          argumentDecor opts g k) := by
  intro opts g k h1 h2
  cases g with
  | mk nm doc annot dflt =>
      simp only [Getter.valueAnnot] at h2
      subst h2
      cases doc with
      | none =>
          refine ⟨{ getterName := nm
                    customName := opts.nameOpt
                    number := k
                    posArgs := opts.aliases.map aliasFlag
                    kwds :=
                      { required := false
                        help := Option.none
                        action := PyAction.storeConst
                        nargsVal := opts.nargsOpt
                        typeVal := Option.none
                        defaultVal := Option.none
                        constFlag := true
                        metavar := opts.metavar } }, ?_, rfl, rfl, rfl, rfl, rfl, ?_⟩
          · simp [argumentDecor, generateArgumentGetter, h1, inferTypeStep,
              applyDefaultAndType]
          · intro d
            simp [argumentDecor, generateArgumentGetter, h1, inferTypeStep,
              applyDefaultAndType]
      | some d0 =>
          refine ⟨{ getterName := nm
                    customName := opts.nameOpt
                    number := k
                    posArgs := opts.aliases.map aliasFlag
                    kwds :=
                      { required := false
                        help := some d0
                        action := PyAction.storeConst
                        nargsVal := opts.nargsOpt
                        typeVal := Option.none
                        defaultVal := Option.none
                        constFlag := true
                        metavar := opts.metavar } }, ?_, rfl, rfl, rfl, rfl, rfl, ?_⟩
          · simp [argumentDecor, generateArgumentGetter, h1, inferTypeStep,
              applyDefaultAndType]
          · intro d
            simp [argumentDecor, generateArgumentGetter, h1, inferTypeStep,
              applyDefaultAndType]

/-- Witness for C6 at the concrete const accessor of the test class. -/

theorem c6_const_spec_shape_witness :
    ∃ info, argumentDecor { constOpt := true } constGetter 4 = Except.ok info ∧
      info.kwds.required = false ∧
      info.kwds.action = PyAction.storeConst ∧
      info.kwds.typeVal = Option.none ∧
      info.kwds.defaultVal = Option.none ∧
      info.kwds.constFlag = true ∧
      (∀ d, argumentDecor { constOpt := true } { constGetter with valueDefault := d } 4 =
        argumentDecor { constOpt := true } constGetter 4) :=
  c6_const_spec_shape { constOpt := true } constGetter 4 rfl rfl

/-! ### C8: sequence numbers and registration order -/

/-- Inserting preserves the elements (as a permutation). -/

lemma insertByNumberPerm (x : ArgumentInfo) : ∀ l : List ArgumentInfo,
    (insertByNumber x l).Perm (x :: l) := by
  intro l
  induction l with
  | nil => exact List.Perm.refl _
  | cons y ys ih =>
      rw [insertByNumber]
      split
      · exact List.Perm.refl _
      · exact List.Perm.trans (List.Perm.cons y ih) (List.Perm.swap x y ys)

/-- Sorting is a permutation of the input. -/

lemma sortByNumberPerm : ∀ l : List ArgumentInfo, (sortByNumber l).Perm l := by
  intro l
  induction l with
  | nil => exact List.Perm.refl _
  | cons x xs ih =>
      rw [sortByNumber]
      exact List.Perm.trans (insertByNumberPerm x (sortByNumber xs)) (List.Perm.cons x ih)

/-- Inserting into a list sorted by sequence number keeps it sorted. -/

lemma insertByNumberPairwise (x : ArgumentInfo) : ∀ l : List ArgumentInfo,
    List.Pairwise (fun a b => a.number ≤ b.number) l →
    List.Pairwise (fun a b => a.number ≤ b.number) (insertByNumber x l) := by
  intro l
  induction l with
  | nil => intro _; simp [insertByNumber]
  | cons y ys ih =>
      intro h
      rw [List.pairwise_cons] at h
      obtain ⟨hy, hys⟩ := h
      rw [insertByNumber]
      split
      · rename_i hlt
        rw [List.pairwise_cons]
        refine ⟨?_, List.pairwise_cons.mpr ⟨hy, hys⟩⟩
        intro b hb
        rcases List.mem_cons.mp hb with rfl | hb2
        · exact Nat.le_of_lt hlt
        · exact Nat.le_trans (Nat.le_of_lt hlt) (hy b hb2)
      · rename_i hge
        rw [List.pairwise_cons]
        refine ⟨?_, ih hys⟩
        intro b hb
        rcases List.mem_cons.mp ((insertByNumberPerm x ys).mem_iff.mp hb) with rfl | hb2
        · exact Nat.le_of_not_lt hge
        · exact hy b hb2

/-- The sorted declaration list is sorted by sequence number. -/

lemma sortByNumberPairwise : ∀ l : List ArgumentInfo,
    List.Pairwise (fun a b => a.number ≤ b.number) (sortByNumber l) := by
  intro l
  induction l with
  | nil => simp [sortByNumber]
  | cons x xs ih =>
      rw [sortByNumber]
      exact insertByNumberPairwise x (sortByNumber xs) ih

/-- A successfully compiled declaration carries the counter value it was
decorated with. -/

lemma argumentDecorNumber (opts : ArgOptions) (g : Getter) (k : Nat)
    (info : ArgumentInfo) (h : argumentDecor opts g k = Except.ok info) :
    info.number = k := by
  simp only [argumentDecor, generateArgumentGetter] at h
  split at h
  · split at h
    · cases h
    · injection h with h2
      subst h2
      rfl
  · split at h
    · cases h
    · split at h
      · cases h
      · injection h with h2
        subst h2
        rfl

/-- The numbers assigned by decorating a class body starting at counter
value `n` are exactly `n, n+1, ...` in definition order. -/

lemma compileAccessorsNumbers : ∀ (accs : List (ArgOptions × Getter)) (n : Nat)
    (infos : List ArgumentInfo),
    compileAccessors n accs = Except.ok infos →
    infos.map (fun i => i.number) = List.range' n accs.length := by
  intro accs
  induction accs with
  | nil =>
      intro n infos h
      simp only [compileAccessors] at h
      injection h with h2
      subst h2
      rfl
  | cons a rest ih =>
      intro n infos h
      obtain ⟨opts, g⟩ := a
      simp only [compileAccessors] at h
      cases hd : argumentDecor opts g n with
      | error e => rw [hd] at h; cases h
      | ok info =>
          rw [hd] at h
          cases hrest : compileAccessors (n + 1) rest with
          | error e => rw [hrest] at h; cases h
          | ok infos1 =>
              rw [hrest] at h
              injection h with h2
              subst h2
              rw [List.length_cons, List.range'_succ]
              simp only [List.map_cons, List.cons.injEq]
              exact ⟨argumentDecorNumber opts g n info hd, ih (n + 1) infos1 hrest⟩

/-- Every accessor of a class body that compiles has itself compiled. -/

lemma compileAccessorsMemOk : ∀ (accs : List (ArgOptions × Getter)) (n : Nat)
    (infos : List ArgumentInfo),
    compileAccessors n accs = Except.ok infos →
    ∀ p ∈ accs, ∃ (k : Nat) (info : ArgumentInfo),
      argumentDecor p.1 p.2 k = Except.ok info := by
  intro accs
  induction accs with
  | nil => intro n infos h p hp; cases hp
  | cons a rest ih =>
      intro n infos h p hp
      obtain ⟨opts, g⟩ := a
      simp only [compileAccessors] at h
      cases hd : argumentDecor opts g n with
      | error e => rw [hd] at h; cases h
      | ok info =>
          rw [hd] at h
          cases hrest : compileAccessors (n + 1) rest with
          | error e => rw [hrest] at h; cases h
          | ok infos1 =>
              rcases List.mem_cons.mp hp with rfl | hp2
              · exact ⟨n, info, hd⟩
              · exact ih (n + 1) infos1 hrest p hp2

/-- **C8**: sequence numbers are assigned in accessor-definition order
(`n, n+1, ...` over the whole hierarchy walk, hence strictly increasing),
and registration sorts the collected declarations by sequence number, so
the grammar engine receives them in ascending sequence order. -/

theorem c8_declaration_order :
    (∀ (accs : List (ArgOptions × Getter)) (n : Nat) (infos : List ArgumentInfo),
        compileAccessors n accs = Except.ok infos →
        infos.map (fun i => i.number) = List.range' n accs.length ∧
        (infos.map (fun i => i.number)).Chain' (· < ·)) ∧
    (∀ collected : List ArgumentInfo,
        (sortByNumber collected).Perm collected ∧
        ((sortByNumber collected).map (fun i => i.number)).Chain' (· ≤ ·) ∧
        buildSpecs collected = (sortByNumber collected).map registerInfo) := by
  constructor
  · intro accs n infos h
    have hnum := compileAccessorsNumbers accs n infos h
    refine ⟨hnum, ?_⟩
    rw [hnum]
    exact (List.pairwise_lt_range' n accs.length).chain'
  · intro collected
    refine ⟨sortByNumberPerm collected, ?_, rfl⟩
    exact (List.pairwise_map.mpr (sortByNumberPairwise collected)).chain'

/-- Witness for C8 on the test class: numbers 0..7 in definition order
and a sorted registration pass. -/

theorem c8_declaration_order_witness :
    argumentInfos.map (fun i => i.number) = List.range' 0 argumentAccessors.length ∧
    (sortByNumber argumentInfos).Perm argumentInfos :=
  ⟨(c8_declaration_order.1 argumentAccessors 0 argumentInfos (by decide)).1,
   (c8_declaration_order.2 argumentInfos).1⟩

/-! ### C4: definition-time failures -/

/-- **C4**: each invalid accessor shape raises at decoration time, while
the class body is processed - before any instance exists and before any
parsing: a non-const accessor with no annotated `value` parameter raises
the ValueError; a parametrized list with more than one type argument and
a union not exactly of the shape `T, None` raise TypeErrors (the latter
with message "Union type is not allowed."); and a class body whose
compilation succeeded contained no such accessor. -/

theorem c4_definition_time_errors :
    (∀ (opts : ArgOptions) (g : Getter) (n : Nat),
        opts.constOpt = false → g.valueAnnot = Option.none →
        argumentDecor opts g n =
          Except.error (CompileError.valueError
            "An argument function should have value parameter.")) ∧
    (∀ (opts : ArgOptions) (g : Getter) (n : Nat) (tyArgs : List PyGround),
        g.valueAnnot = some (PyAnnot.listOf tyArgs) → tyArgs.length > 1 →
        argumentDecor opts g n =
          Except.error (CompileError.typeError
            "You should set the return type of argument function to list that contains only one type.")) ∧
    (∀ (opts : ArgOptions) (g : Getter) (n : Nat) (tyArgs : List PyGround),
        g.valueAnnot = some (PyAnnot.unionOf tyArgs) →
        (∀ t, tyArgs ≠ [t, PyGround.noneType]) →
        argumentDecor opts g n =
          Except.error (CompileError.typeError "Union type is not allowed.")) ∧
    (∀ (n : Nat) (accs : List (ArgOptions × Getter)) (infos : List ArgumentInfo),
        compileAccessors n accs = Except.ok infos →
        ∀ p ∈ accs, ∃ (k : Nat) (info : ArgumentInfo),
          argumentDecor p.1 p.2 k = Except.ok info) := by
  refine ⟨?_, ?_, ?_, ?_⟩
  · intro opts g n h1 h2
    cases g with
    | mk nm doc annot dflt =>
        simp only [Getter.valueAnnot] at h2
        subst h2
        cases doc <;> simp [argumentDecor, generateArgumentGetter, h1]
  · intro opts g n tyArgs h1 hlen
    cases g with
    | mk nm doc annot dflt =>
        simp only [Getter.valueAnnot] at h1
        subst h1
        cases doc <;> cases hc : opts.constOpt <;>
          simp [argumentDecor, generateArgumentGetter, hc, inferTypeStep, hlen]
  · intro opts g n tyArgs h1 hshape
    cases g with
    | mk nm doc annot dflt =>
        simp only [Getter.valueAnnot] at h1
        subst h1
        rcases tyArgs with _ | ⟨t, _ | ⟨u, _ | ⟨v, tl⟩⟩⟩
        · cases doc <;> cases hc : opts.constOpt <;>
            simp [argumentDecor, generateArgumentGetter, hc, inferTypeStep]
        · cases doc <;> cases hc : opts.constOpt <;>
            simp [argumentDecor, generateArgumentGetter, hc, inferTypeStep]
        · have hu : u ≠ PyGround.noneType := by
            intro hv
            exact hshape t (by rw [hv])
          cases doc <;> cases hc : opts.constOpt <;>
            simp [argumentDecor, generateArgumentGetter, hc, inferTypeStep, hu]
        · cases doc <;> cases hc : opts.constOpt <;>
            simp [argumentDecor, generateArgumentGetter, hc, inferTypeStep]
  · exact fun n accs infos h => compileAccessorsMemOk accs n infos h

/-- Witness for C4 on concrete invalid accessors (and the valid `foo`). -/

theorem c4_definition_time_errors_witness :
    argumentDecor {} { name := "w1" } 0 =
      Except.error (CompileError.valueError
        "An argument function should have value parameter.") ∧
    argumentDecor {} { name := "w2", valueAnnot := some (PyAnnot.listOf [PyGround.int, PyGround.str]) } 0 =
      Except.error (CompileError.typeError
        "You should set the return type of argument function to list that contains only one type.") ∧
    argumentDecor {} { name := "w3", valueAnnot := some (PyAnnot.unionOf [PyGround.int, PyGround.str]) } 0 =
      Except.error (CompileError.typeError "Union type is not allowed.") ∧
    (∃ (k : Nat) (info : ArgumentInfo), argumentDecor {} fooGetter k = Except.ok info) :=
  ⟨c4_definition_time_errors.1 {} { name := "w1" } 0 rfl rfl,
   c4_definition_time_errors.2.1 {} { name := "w2", valueAnnot := some (PyAnnot.listOf [PyGround.int, PyGround.str]) } 0
     [PyGround.int, PyGround.str] rfl (by decide),
   c4_definition_time_errors.2.2.1 {} { name := "w3", valueAnnot := some (PyAnnot.unionOf [PyGround.int, PyGround.str]) } 0
     [PyGround.int, PyGround.str] rfl (by intro t h; simp at h),
   c4_definition_time_errors.2.2.2 0 [({}, fooGetter)]
     [{ getterName := "foo"
        customName := Option.none
        number := 0
        posArgs := []
        kwds :=
          { required := true
            help := Option.none
            action := PyAction.store
            nargsVal := Option.none
            typeVal := some PyGround.str
            defaultVal := Option.none
            constFlag := false
            metavar := Option.none } }] (by decide)
     ({}, fooGetter) (List.mem_singleton.mpr rfl)⟩

end Clsarg
